import Mathlib

/-!
Verification of the kvca_automation worker against its specification.

The definitions below are a shallow embedding of `src/worker/app/storage.py`
and `src/worker/app/sync_service.py`:

* the `job_lock` table is modelled as a function from job name to an optional
  lease row, so the primary-key uniqueness of `job_name` is built in;
* the REST store is modelled by explicit state passing; a conditional PATCH
  ("update where filter") becomes a pointwise update guarded by the filter,
  and its `return=representation` emptiness test becomes the guard value;
* timestamps are integers (seconds); `datetime.now` values that only flow
  into stored rows are threaded as opaque strings;
* fallible storage calls in the sync orchestrator are represented by
  `Except String` results supplied by a `StorageBehavior`, and `sync` is
  modelled as the trace of storage calls it makes plus its outcome;
* SHA-256 in the sheet-outbox row key is modelled by an abstract `digest`
  parameter applied to the exact canonical JSON serialisation the code hashes.
-/

namespace Kvca

/-- The whitespace characters stripped by Python `str.strip()` (restricted
to ASCII; the stripped fields in this system are ASCII identifiers and
timestamps). -/
def isPyWhitespace (c : Char) : Bool :=
  c = ' ' || c = '\t' || c = '\n' || c = '\r' || c = '\x0b' || c = '\x0c'

/-- Python `str.strip()`: drop whitespace from both ends. -/
def pyStrip (s : String) : String :=
  String.mk (((s.toList.dropWhile isPyWhitespace).reverse.dropWhile
    isPyWhitespace).reverse)

/-- Python `str.lower()` on one character (ASCII range). -/
def pyLowerChar (c : Char) : Char :=
  if 'A' ≤ c ∧ c ≤ 'Z' then Char.ofNat (c.toNat + 32) else c

/-- Python `str.lower()` (ASCII range). -/
def pyLower (s : String) : String :=
  String.mk (s.toList.map pyLowerChar)

/-- Model of `_to_str`: strip and map blank results to `None`
(`storage.py` lines 1021-1025, applied to values that are already strings
or absent). -/
def toStr : Option String → Option String
  | none => none
  | some s => let t := pyStrip s; if t = "" then none else some t

/-- Model of `_is_truthy_timestamp` (`storage.py` lines 934-940): a value is a
truthy timestamp when present, non-blank after stripping, and not the
case-insensitive sentinel "empty". -/
def isTruthyTimestamp : Option String → Bool
  | none => false
  | some v =>
    let text := pyStrip v
    if text = "" then false else !(pyLower text == "empty")

/-- Model of `_determine_severity` (`storage.py` lines 943-950). -/
def determineSeverity (alertType : String) (status : Option String)
    (isPaid isDocReady : Bool) : String :=
  if alertType == "CHANGED" && (isPaid || isDocReady) then "high"
  else if alertType == "NEW" && (isPaid || isDocReady) then "medium"
  else if status == some "DS" then "low"
  else "medium"

/-- One row of the `job_lock` table. -/
structure JobLease where
  lockedBy : String
  lockedAt : Int
  lockExpiresAt : Int
deriving DecidableEq

/-- The `job_lock` table: `job_name` is the primary key, so the table is a
function from job name to at most one lease row. -/
def JobLockTable := String → Option JobLease

/-- Model of `SupabaseStorage.acquire_job_lock` (`storage.py` lines 149-197).
Attempts, in order: (1) fresh insert, rejected with 409 when a row for the
job already exists; (2) a PATCH restricted to `job_name = job` and
`lock_expires_at < now` (takeover of an expired lease), succeeding iff the
returned representation is non-empty; (3) a PATCH restricted to
`job_name = job` and `locked_by = owner` (refresh of the caller's own
lease). Returns the success flag and the table after the call. -/
def acquireJobLock (tbl : JobLockTable) (job owner : String)
    (ttlSeconds now : Int) : Bool × JobLockTable :=
  let expiresAt := now + max 1 ttlSeconds
  match tbl job with
  | none =>
    (true, fun j => if j = job then
        some { lockedBy := owner, lockedAt := now, lockExpiresAt := expiresAt }
      else tbl j)
  | some l =>
    if l.lockExpiresAt < now then
      (true, fun j => if j = job then
          some { lockedBy := owner, lockedAt := now, lockExpiresAt := expiresAt }
        else tbl j)
    else if l.lockedBy = owner then
      (true, fun j => if j = job then
          some { l with lockedAt := now, lockExpiresAt := expiresAt }
        else tbl j)
    else
      (false, tbl)

/-- Model of `SupabaseStorage.release_job_lock` (`storage.py` lines 199-206):
DELETE restricted to `job_name = job` and `locked_by = owner`. Deleting
zero rows is a success (no error). -/
def releaseJobLock (tbl : JobLockTable) (job owner : String) : JobLockTable :=
  fun j =>
    match tbl j with
    | none => none
    | some l => if j = job ∧ l.lockedBy = owner then none else some l

/-- The three ways `acquire_job_lock` can return true: fresh insert on an
absent row, takeover of an already-expired lease, or refresh of the
caller's own lease. -/
def acquireViaValidPath (tbl : JobLockTable) (job owner : String)
    (now : Int) : Prop :=
  match tbl job with
  | none => True
  | some l => l.lockExpiresAt < now ∨ l.lockedBy = owner

/-- One storage call made by `EnrolmentSyncService.sync`
(`sync_service.py` lines 47-123). The `finishRun` constructor is the
`finish_run` call of the `Storage` protocol (`storage.py` lines 65-72);
`sync` never succeeds in issuing it, because both of its `finish_run`
call sites omit the required `job_name` argument — the constructor exists
so that its absence from every trace can be stated. -/
inductive StorageCall where
  | acquire (jobName : String) (ttlSeconds : Int)
  | startRun (jobName : String) (triggerType : String)
  | upsertRecords
  | finishRun (runId : Option Nat) (success : Bool) (errorMessage : Option String)
  | release (jobName : String)
deriving DecidableEq

/-- Outcomes of the storage calls `sync` can actually perform: the lease
acquire, `start_run`, and the traversal-plus-upsert body. The two
`finish_run` invocations are not behavior-dependent: they raise
`TypeError` at argument binding — `sync_service.py` lines 106 and 115
pass only `run_id`, `success`, `summary` and `error_message`, while
`finish_run` requires `job_name` (`storage.py` lines 65-72, 93-100 and
226-233) — so no `finish_run` ever reaches a storage implementation. -/
structure StorageBehavior where
  acquireOk : Bool
  startRunResult : Except String (Option Nat)
  runBodyResult : Except String Unit

/-- The job name hard-coded in `sync` (`sync_service.py` line 46). -/
def syncJobName : String := "enrolment_sync"

/-- The lock-conflict error raised when the lease is not acquired
(`sync_service.py` line 50). -/
def lockConflictMessage : String := "Job is already running (job_lock active)."

/-- The `TypeError` message raised at both `finish_run` call sites
(`sync_service.py` lines 106 and 115): the calls omit the required
`job_name` parameter, so Python raises at argument binding before any
storage request is made. CPython prefixes the message with the storage
class qualname and quotes the argument name; the model keeps the
implementation-independent core of the text. -/
def finishRunTypeError : String :=
  "finish_run() missing 1 required positional argument: job_name"

/-- Model of `EnrolmentSyncService.sync` (`sync_service.py` lines 38-123) as
the ordered trace of storage calls it performs plus its outcome. The
traversal and upsert inside the `try` block (lines 55-105) are abstracted
as one fallible phase `runBodyResult`, recorded as `upsertRecords` when it
completes. Faithful control flow: the lock-conflict raise precedes
`start_run`; `start_run` is outside the `try`, so an exception there is
not covered by the `finally`; when the body completes, the success-path
`finish_run` call at line 106 raises `TypeError` at argument binding
(missing `job_name`) inside the `try`, the `except` clause catches it
and the failure-path `finish_run` call at line 115 raises the same
`TypeError` inside the `except`, which propagates; when the body raises,
the `except` clause's `finish_run` call likewise raises `TypeError`,
replacing the original exception; in both cases the `finally` clause
still releases the lease. Consequently no `finishRun` storage call ever
appears in a trace and no run past `start_run` ever returns normally. -/
def syncRun (b : StorageBehavior) (lockTtlSeconds : Int) :
    List StorageCall × Except String Unit :=
  if b.acquireOk = false then
    ([.acquire syncJobName lockTtlSeconds], .error lockConflictMessage)
  else
    let headCalls : List StorageCall :=
      [.acquire syncJobName lockTtlSeconds, .startRun syncJobName "MANUAL"]
    match b.startRunResult with
    | .error e => (headCalls, .error e)
    | .ok _runId =>
      match b.runBodyResult with
      | .ok _ =>
        (headCalls ++ [.upsertRecords, .release syncJobName],
          .error finishRunTypeError)
      | .error _e =>
        (headCalls ++ [.release syncJobName], .error finishRunTypeError)

/-- The status and error-message fields of the `run_log` PATCH body built by
`SupabaseStorage.finish_run` (`storage.py` lines 251-260). The numeric
counter fields and the finish timestamp copied from the run summary are
orthogonal to the claims and not modelled. -/
structure RunLogPatch where
  status : String
  errorMessage : Option String
deriving DecidableEq

/-- Model of the `run_log` PATCH body of `finish_run`: status is SUCCESS or
FAILED, and `error_message` is attached, truncated to 1500 characters,
only when the message is present and non-empty (Python truthiness of
`if error_message:`). -/
def finishRunPatch (success : Bool) (errorMessage : Option String) : RunLogPatch :=
  { status := if success then "SUCCESS" else "FAILED"
    errorMessage :=
      match errorMessage with
      | some msg => if msg = "" then none else some (msg.take 1500)
      | none => none }

/-- Model of `SourceRecordInput` (`storage.py` lines 17-37). The JSON
`payload` is represented by its canonical serialisation. -/
structure SourceRecordInput where
  sourceType : String
  sourceId : String
  categoryId : Option Int
  courseId : Option Int
  termId : Option Int
  userId : Option String
  userName : Option String
  companyName : Option String
  deptName : Option String
  jobPosition : Option String
  status : Option String
  statusMsg : Option String
  codeName : Option String
  dsDate : Option String
  gcDate : Option String
  sjcDate : Option String
  updateTime : Option String
  payload : String
  payloadHash : String
deriving DecidableEq

/-- The composite key `(source_type, source_id)` of a record. -/
def recordKey (r : SourceRecordInput) : String × String :=
  (r.sourceType, r.sourceId)

/-- One iteration of the `_build_diff` loop (`storage.py` lines 430-436):
write NEW when the key has no stored hash, CHANGED when the stored hash
differs, and nothing when it is equal. -/
def buildDiffStep (existing : String × String → Option String)
    (diff : String × String → Option String)
    (r : SourceRecordInput) : String × String → Option String :=
  match existing (recordKey r) with
  | none => fun k => if k = recordKey r then some "NEW" else diff k
  | some oldHash =>
    if oldHash ≠ r.payloadHash then
      fun k => if k = recordKey r then some "CHANGED" else diff k
    else diff

/-- Model of `SupabaseStorage._build_diff` (`storage.py` lines 424-437).
`existing` is the stored-hash lookup produced by `_fetch_existing_hashes`;
the diff dict is modelled as a function from key to optional
classification, with later writes shadowing earlier ones. -/
def buildDiff (records : List SourceRecordInput)
    (existing : String × String → Option String) :
    String × String → Option String :=
  records.foldl (buildDiffStep existing) (fun _ => none)

/-- The `detail` JSON object embedded in an alert row
(`storage.py` lines 476-492). -/
structure AlertDetail where
  sourceType : String
  sourceId : String
  categoryId : Option Int
  courseId : Option Int
  termId : Option Int
  userId : Option String
  status : Option String
  statusMsg : Option String
  codeName : Option String
  isPaid : Bool
  isDocReady : Bool
  gcDate : Option String
  sjcDate : Option String
  updateTime : Option String
  payloadHash : String
deriving DecidableEq

/-- One row of the `alert` table as built by `_build_alert_rows`
(`storage.py` lines 463-496). -/
structure AlertRow where
  sourceType : String
  sourceId : String
  alertType : String
  severity : String
  title : String
  message : String
  detail : AlertDetail
  reviewStatus : String
  resolved : Bool
deriving DecidableEq

/-- Python truthiness of `record.status or "-"` in the alert message. -/
def statusOrDash : Option String → String
  | none => "-"
  | some s => if s = "" then "-" else s

/-- The alert row `_build_alert_rows` appends for one record with the given
diff classification (`storage.py` lines 453-496). -/
def alertRowOfRecord (r : SourceRecordInput) (alertType : String) : AlertRow :=
  let isPaid := isTruthyTimestamp r.gcDate
  let isDocReady := isTruthyTimestamp r.sjcDate
  let paidLabel := if isPaid then "Y" else "N"
  let docReadyLabel := if isDocReady then "Y" else "N"
  { sourceType := r.sourceType
    sourceId := r.sourceId
    alertType := alertType
    severity := determineSeverity alertType r.status isPaid isDocReady
    title := alertType ++ " enrolment status"
    message := r.sourceId ++ " status=" ++ statusOrDash r.status
      ++ " paid=" ++ paidLabel ++ " doc_ready=" ++ docReadyLabel
    detail :=
      { sourceType := r.sourceType
        sourceId := r.sourceId
        categoryId := r.categoryId
        courseId := r.courseId
        termId := r.termId
        userId := r.userId
        status := r.status
        statusMsg := r.statusMsg
        codeName := r.codeName
        isPaid := isPaid
        isDocReady := isDocReady
        gcDate := r.gcDate
        sjcDate := r.sjcDate
        updateTime := r.updateTime
        payloadHash := r.payloadHash }
    reviewStatus := "AUTO"
    resolved := false }

/-- Model of `SupabaseStorage._build_alert_rows` (`storage.py` lines
439-497): business alerts come only from `enrolment_status` records whose
diff classification is NEW or CHANGED. -/
def buildAlertRows (records : List SourceRecordInput)
    (diff : String × String → Option String) : List AlertRow :=
  records.filterMap (fun r =>
    if r.sourceType ≠ "enrolment_status" then none
    else
      match diff (recordKey r) with
      | some alertType =>
        if alertType == "NEW" || alertType == "CHANGED" then
          some (alertRowOfRecord r alertType)
        else none
      | none => none)

/-- One iteration of the `_count_business_diff` loop (`storage.py` lines
505-511): only `enrolment_status` records whose diff classification is
NEW or CHANGED bump a counter. -/
def countBusinessDiffStep (diff : String × String → Option String)
    (counts : Nat × Nat) (r : SourceRecordInput) : Nat × Nat :=
  if r.sourceType ≠ "enrolment_status" then counts
  else
    match diff (recordKey r) with
    | some value =>
      if value == "NEW" then (counts.1 + 1, counts.2)
      else if value == "CHANGED" then (counts.1, counts.2 + 1)
      else counts
    | none => counts

/-- Model of `SupabaseStorage._count_business_diff` (`storage.py` lines
499-512), returning the (NEW, CHANGED) counters. -/
def countBusinessDiff (records : List SourceRecordInput)
    (diff : String × String → Option String) : Nat × Nat :=
  records.foldl (countBusinessDiffStep diff) (0, 0)

/-- Model of `SupabaseStorage._filter_alert_rows_by_cooldown`
(`storage.py` lines 814-833). `hasRecent` is the point-in-time lookback
query `_has_recent_alert` against the alert table, with the `since`
timestamp absorbed into the predicate; in this typed model the string
fields of a row are always present, so the isinstance guards always hold. -/
def filterAlertRowsByCooldown (cooldownMinutes : Int)
    (hasRecent : String → String → String → Bool)
    (rows : List AlertRow) : List AlertRow :=
  if cooldownMinutes ≤ 0 ∨ rows = [] then rows
  else rows.filter (fun r => !(hasRecent r.sourceType r.sourceId r.alertType))

/-- One row of the append-only `snapshot` table (`storage.py` lines 300-307). -/
structure SnapshotRow where
  sourceType : String
  sourceId : String
  snapshotHash : String
  payload : String
deriving DecidableEq

/-- The snapshot row appended for one record. -/
def snapshotRowOf (r : SourceRecordInput) : SnapshotRow :=
  { sourceType := r.sourceType
    sourceId := r.sourceId
    snapshotHash := r.payloadHash
    payload := r.payload }

/-- One row of the current-state `source_record` table
(`storage.py` lines 276-299). -/
structure SourceRow where
  sourceType : String
  sourceId : String
  categoryId : Option Int
  courseId : Option Int
  termId : Option Int
  userId : Option String
  userName : Option String
  companyName : Option String
  deptName : Option String
  jobPosition : Option String
  status : Option String
  statusMsg : Option String
  codeName : Option String
  dsDate : Option String
  gcDate : Option String
  sjcDate : Option String
  updateTime : Option String
  payload : String
  payloadHash : String
  lastSeenAt : String
deriving DecidableEq

/-- The current-state row upserted for one record. -/
def sourceRowOf (now : String) (r : SourceRecordInput) : SourceRow :=
  { sourceType := r.sourceType
    sourceId := r.sourceId
    categoryId := r.categoryId
    courseId := r.courseId
    termId := r.termId
    userId := r.userId
    userName := r.userName
    companyName := r.companyName
    deptName := r.deptName
    jobPosition := r.jobPosition
    status := r.status
    statusMsg := r.statusMsg
    codeName := r.codeName
    dsDate := r.dsDate
    gcDate := r.gcDate
    sjcDate := r.sjcDate
    updateTime := r.updateTime
    payload := r.payload
    payloadHash := r.payloadHash
    lastSeenAt := now }

/-- Model of `PersistResult` (`storage.py` lines 40-45). -/
structure PersistResult where
  upsertedCount : Nat
  newCount : Nat
  changedCount : Nat
  alertCount : Nat
deriving DecidableEq

/-- The counters returned by `upsert_source_records` together with the rows
it writes to the store. -/
structure PersistOutput where
  result : PersistResult
  sourceRows : List SourceRow
  snapshotRows : List SnapshotRow
  alertRows : List AlertRow
deriving DecidableEq

/-- Model of `SupabaseStorage.upsert_source_records` (`storage.py` lines
264-319): early return on an empty batch; otherwise classify against the
stored hashes, build business alert candidates, cooldown-filter them,
upsert one current-state row and append one snapshot row per record,
insert the surviving alert rows, and return the counters. -/
def upsertSourceRecords (records : List SourceRecordInput)
    (existing : String × String → Option String)
    (cooldownMinutes : Int)
    (hasRecent : String → String → String → Bool)
    (now : String) : PersistOutput :=
  if records = [] then
    { result := { upsertedCount := 0, newCount := 0, changedCount := 0, alertCount := 0 }
      sourceRows := []
      snapshotRows := []
      alertRows := [] }
  else
    let diff := buildDiff records existing
    let alertCandidates := buildAlertRows records diff
    let alertRows := filterAlertRowsByCooldown cooldownMinutes hasRecent alertCandidates
    let counts := countBusinessDiff records diff
    { result :=
        { upsertedCount := records.length
          newCount := counts.1
          changedCount := counts.2
          alertCount := alertRows.length }
      sourceRows := records.map (sourceRowOf now)
      snapshotRows := records.map snapshotRowOf
      alertRows := alertRows }

/-- Lower-case hexadecimal digit, as used by `\uXXXX` escapes. -/
def hexDigit (n : Nat) : Char :=
  if n < 10 then Char.ofNat (48 + n) else Char.ofNat (87 + n)

/-- Escape of one character inside a JSON string, as produced by Python
`json.dumps` with `ensure_ascii=False`. -/
def jsonEscapeChar (c : Char) : String :=
  if c = '"' then "\\\""
  else if c = '\\' then "\\\\"
  else if c = '\n' then "\\n"
  else if c = '\r' then "\\r"
  else if c = '\t' then "\\t"
  else if c = '\x08' then "\\b"
  else if c = '\x0c' then "\\f"
  else if c.toNat < 32 then
    "\\u00" ++ String.mk [hexDigit (c.toNat / 16), hexDigit (c.toNat % 16)]
  else String.singleton c

/-- JSON string literal for `s`. -/
def jsonStr (s : String) : String :=
  "\"" ++ String.join (s.toList.map jsonEscapeChar) ++ "\""

/-- JSON value for an optional string (`null` when absent). -/
def jsonOptStr : Option String → String
  | none => "null"
  | some s => jsonStr s

/-- JSON value for an optional integer (`null` when absent). -/
def jsonOptInt : Option Int → String
  | none => "null"
  | some i => toString i

/-- JSON value for a boolean. -/
def jsonBool : Bool → String
  | true => "true"
  | false => "false"

/-- Canonical serialisation of an alert `detail` object: `json.dumps` with
sorted keys and separators `(",", ":")`, keys in ascending order. -/
def dumpAlertDetail (d : AlertDetail) : String :=
  "\x7b" ++
  "\"category_id\":" ++ jsonOptInt d.categoryId ++
  ",\"code_name\":" ++ jsonOptStr d.codeName ++
  ",\"course_id\":" ++ jsonOptInt d.courseId ++
  ",\"gc_date\":" ++ jsonOptStr d.gcDate ++
  ",\"is_doc_ready\":" ++ jsonBool d.isDocReady ++
  ",\"is_paid\":" ++ jsonBool d.isPaid ++
  ",\"payload_hash\":" ++ jsonStr d.payloadHash ++
  ",\"sjc_date\":" ++ jsonOptStr d.sjcDate ++
  ",\"source_id\":" ++ jsonStr d.sourceId ++
  ",\"source_type\":" ++ jsonStr d.sourceType ++
  ",\"status\":" ++ jsonOptStr d.status ++
  ",\"status_msg\":" ++ jsonOptStr d.statusMsg ++
  ",\"term_id\":" ++ jsonOptInt d.termId ++
  ",\"update_time\":" ++ jsonOptStr d.updateTime ++
  ",\"user_id\":" ++ jsonOptStr d.userId ++
  "\x7d"

/-- The canonical JSON text hashed by `_build_alert_row_key`
(`storage.py` lines 995-1007): the six identifying fields, keys sorted,
separators `(",", ":")`. -/
def buildAlertRowKeyRaw (row : AlertRow) : String :=
  let sourceType := (toStr (some row.sourceType)).getD "unknown"
  let sourceId := (toStr (some row.sourceId)).getD "unknown"
  let alertType := (toStr (some row.alertType)).getD "UNKNOWN"
  "\x7b" ++
  "\"alert_type\":" ++ jsonStr alertType ++
  ",\"detail\":" ++ dumpAlertDetail row.detail ++
  ",\"message\":" ++ jsonOptStr (toStr (some row.message)) ++
  ",\"source_id\":" ++ jsonStr sourceId ++
  ",\"source_type\":" ++ jsonStr sourceType ++
  ",\"title\":" ++ jsonOptStr (toStr (some row.title)) ++
  "\x7d"

/-- Model of `_build_alert_row_key` (`storage.py` lines 991-1009). The
SHA-256 hex digest truncated to 16 characters is modelled by the abstract
`digest` parameter applied to the exact serialised text the code hashes. -/
def buildAlertRowKey (digest : String → String) (row : AlertRow) : String :=
  let sourceType := (toStr (some row.sourceType)).getD "unknown"
  let sourceId := (toStr (some row.sourceId)).getD "unknown"
  let alertType := (toStr (some row.alertType)).getD "UNKNOWN"
  sourceType ++ ":" ++ sourceId ++ ":" ++ alertType ++ ":"
    ++ digest (buildAlertRowKeyRaw row)

/-- The six fields `_build_alert_row_key` reads from an alert row. -/
def alertKeyFields (row : AlertRow) :
    String × String × String × String × String × AlertDetail :=
  (row.sourceType, row.sourceId, row.alertType, row.title, row.message, row.detail)

/-- One row inserted into `sheet_outbox` (`storage.py` lines 555-570). -/
structure SheetOutboxRow where
  sourceType : String
  sourceId : String
  rowKey : String
  payloadAlertType : String
  payloadSeverity : String
  payloadTitle : Option String
  payloadMessage : Option String
  payloadDetail : AlertDetail
deriving DecidableEq

/-- Model of `SupabaseStorage._enqueue_sheet_outbox` (`storage.py` lines
542-579). `rowKeyExists` is `_sheet_outbox_row_exists`, a query against
the `sheet_outbox` table as it stands when the call begins; the rows
collected here are inserted only after the whole loop, so the existence
check never sees rows produced earlier in the same batch. -/
def enqueueSheetOutbox (digest : String → String)
    (rowKeyExists : String → Bool)
    (alertRows : List AlertRow) : List SheetOutboxRow :=
  alertRows.filterMap (fun row =>
    match toStr (some row.sourceType), toStr (some row.sourceId),
        toStr (some row.alertType) with
    | some sourceType, some sourceId, some alertType =>
      let rowKey := buildAlertRowKey digest row
      if rowKeyExists rowKey then none
      else
        some { sourceType := sourceType
               sourceId := sourceId
               rowKey := rowKey
               payloadAlertType := alertType
               payloadSeverity := (toStr (some row.severity)).getD "medium"
               payloadTitle := toStr (some row.title)
               payloadMessage := toStr (some row.message)
               payloadDetail := row.detail }
    | _, _, _ => none)

/-- The retry-base setting clamp in the constructor
(`storage.py` line 141): `max(1, settings.outbox_retry_base_seconds)`. -/
def outboxRetryBaseSeconds (configured : Int) : Int := max 1 configured

/-- The retry-cap setting clamp in the constructor (`storage.py` line 142):
at least the clamped base. -/
def outboxRetryMaxSeconds (configuredBase configuredMax : Int) : Int :=
  max (outboxRetryBaseSeconds configuredBase) configuredMax

/-- The PATCH body built by `_mark_outbox_failed` (`storage.py` lines
719-742); `nextRetryDelaySeconds` is the delay added to the current time
to produce `next_retry_at`. -/
structure OutboxFailPatch where
  status : String
  retryCount : Int
  lastError : String
  nextRetryDelaySeconds : Int
deriving DecidableEq

/-- Model of `_mark_outbox_failed`: increment the retry count, truncate the
error, and schedule the retry after
`min(base * 2 ** max(0, current_retry_count), max_seconds)` seconds. -/
def markOutboxFailedPatch (base maxSeconds currentRetryCount : Int)
    (errorMessage : String) : OutboxFailPatch :=
  { status := "FAILED"
    retryCount := currentRetryCount + 1
    lastError := errorMessage.take 1000
    nextRetryDelaySeconds :=
      min (base * 2 ^ (max 0 currentRetryCount).toNat) maxSeconds }

/-! ## Helper lemmas -/

/-- Acquire on an absent row takes the fresh-insert path. -/
lemma acquireJobLock_of_none (tbl : JobLockTable) (job owner : String)
    (ttlSeconds now : Int) (h : tbl job = none) :
    acquireJobLock tbl job owner ttlSeconds now =
      (true, fun j => if j = job then
          some { lockedBy := owner, lockedAt := now,
                 lockExpiresAt := now + max 1 ttlSeconds }
        else tbl j) := by
  unfold acquireJobLock
  rw [h]

/-- Acquire against a live lease held by someone else fails and leaves the
table unchanged. -/
lemma acquireJobLock_of_live_other (tbl : JobLockTable) (job owner : String)
    (ttlSeconds now : Int) (l : JobLease) (h : tbl job = some l)
    (hexp : ¬ l.lockExpiresAt < now) (hown : ¬ l.lockedBy = owner) :
    acquireJobLock tbl job owner ttlSeconds now = (false, tbl) := by
  unfold acquireJobLock
  rw [h]
  simp only [if_neg hexp, if_neg hown]

/-- Acquire against an expired lease takes the takeover path. -/
lemma acquireJobLock_takeover (tbl : JobLockTable) (job owner : String)
    (ttlSeconds now : Int) (l : JobLease) (h : tbl job = some l)
    (hexp : l.lockExpiresAt < now) :
    acquireJobLock tbl job owner ttlSeconds now =
      (true, fun j => if j = job then
          some { lockedBy := owner, lockedAt := now,
                 lockExpiresAt := now + max 1 ttlSeconds }
        else tbl j) := by
  unfold acquireJobLock
  rw [h]
  simp only [if_pos hexp]

/-- Release by a non-owner deletes nothing. -/
lemma releaseJobLock_noop (tbl : JobLockTable) (job owner : String)
    (h : ∀ l, tbl job = some l → l.lockedBy ≠ owner) :
    releaseJobLock tbl job owner = tbl := by
  funext j
  unfold releaseJobLock
  cases hj : tbl j with
  | none => rfl
  | some l =>
    show (if j = job ∧ l.lockedBy = owner then none else some l) = some l
    by_cases hjj : j = job
    · subst hjj
      rw [if_neg]
      intro hc
      exact h l hj hc.2
    · rw [if_neg (fun hc => hjj hc.1)]

/-- Any successful acquire went through one of the three legitimate paths. -/
lemma acquireJobLock_true_path (tbl : JobLockTable) (job owner : String)
    (ttlSeconds now : Int)
    (h : (acquireJobLock tbl job owner ttlSeconds now).1 = true) :
    acquireViaValidPath tbl job owner now := by
  unfold acquireViaValidPath
  cases hj : tbl job with
  | none => trivial
  | some l =>
    show l.lockExpiresAt < now ∨ l.lockedBy = owner
    by_cases hexp : l.lockExpiresAt < now
    · exact Or.inl hexp
    · by_cases hown : l.lockedBy = owner
      · exact Or.inr hown
      · rw [acquireJobLock_of_live_other tbl job owner ttlSeconds now l hj hexp hown] at h
        exact absurd h (by simp)

/-! ## C1 -/

/-- C1. Lease mutual exclusion: once owner A has freshly acquired the lease
on a job with TTL T at time t0, a different owner B cannot acquire it at
any time up to and including t0 + T (the acquire returns false and leaves
the table unchanged); at any strictly later time u, B's acquire succeeds
via the takeover path and installs B as owner; A's subsequent release of
the lease it no longer owns deletes nothing; and in general an acquire
returns true only via a fresh insert, a takeover of an already-expired
lease, or a refresh of the caller's own lease. -/
theorem C1_lease_mutual_exclusion
    (tbl0 : JobLockTable) (job ownerA ownerB : String)
    (ttlA ttlB t0 t u : Int)
    (h0 : tbl0 job = none) (hT : 1 ≤ ttlA) (hBA : ownerB ≠ ownerA)
    (ht : t ≤ t0 + ttlA) (hu : t0 + ttlA < u) :
    (acquireJobLock tbl0 job ownerA ttlA t0).1 = true
    ∧ (acquireJobLock tbl0 job ownerA ttlA t0).2 job
        = some { lockedBy := ownerA, lockedAt := t0, lockExpiresAt := t0 + ttlA }
    ∧ acquireJobLock (acquireJobLock tbl0 job ownerA ttlA t0).2 job ownerB ttlB t
        = (false, (acquireJobLock tbl0 job ownerA ttlA t0).2)
    ∧ (acquireJobLock (acquireJobLock tbl0 job ownerA ttlA t0).2 job ownerB ttlB u).1
        = true
    ∧ (acquireJobLock (acquireJobLock tbl0 job ownerA ttlA t0).2 job ownerB ttlB u).2 job
        = some { lockedBy := ownerB, lockedAt := u, lockExpiresAt := u + max 1 ttlB }
    ∧ releaseJobLock
        (acquireJobLock (acquireJobLock tbl0 job ownerA ttlA t0).2 job ownerB ttlB u).2
        job ownerA
      = (acquireJobLock (acquireJobLock tbl0 job ownerA ttlA t0).2 job ownerB ttlB u).2
    ∧ (∀ tb jb o ttl tm, (acquireJobLock tb jb o ttl tm).1 = true →
        acquireViaValidPath tb jb o tm) := by
  have hmax : max 1 ttlA = ttlA := max_eq_right hT
  have hA := acquireJobLock_of_none tbl0 job ownerA ttlA t0 h0
  have hA2 : (acquireJobLock tbl0 job ownerA ttlA t0).2 job
      = some { lockedBy := ownerA, lockedAt := t0, lockExpiresAt := t0 + ttlA } := by
    rw [hA]
    simp [hmax]
  have hB := acquireJobLock_of_live_other
    (acquireJobLock tbl0 job ownerA ttlA t0).2 job ownerB ttlB t
    { lockedBy := ownerA, lockedAt := t0, lockExpiresAt := t0 + ttlA } hA2
    (by simpa using not_lt.mpr ht) (by simpa using fun h => hBA h.symm)
  have hBu := acquireJobLock_takeover
    (acquireJobLock tbl0 job ownerA ttlA t0).2 job ownerB ttlB u
    { lockedBy := ownerA, lockedAt := t0, lockExpiresAt := t0 + ttlA } hA2
    (by simpa using hu)
  have hBu2 : (acquireJobLock (acquireJobLock tbl0 job ownerA ttlA t0).2
      job ownerB ttlB u).2 job
      = some { lockedBy := ownerB, lockedAt := u, lockExpiresAt := u + max 1 ttlB } := by
    rw [hBu]
    simp
  refine ⟨by rw [hA], hA2, hB, by rw [hBu], hBu2, ?_, acquireJobLock_true_path⟩
  apply releaseJobLock_noop
  intro l hl hown
  rw [hBu2] at hl
  have : l.lockedBy = ownerB := by
    cases hl
    rfl
  exact hBA (this ▸ hown)

/-- C1 witness: a concrete table where worker A acquires the lease for 60
seconds at time 0; worker B fails at time 60 and succeeds at time 61. -/
theorem C1_lease_mutual_exclusion_witness :
    (acquireJobLock (fun _ => none) "enrolment_sync" "workerA" 60 0).1 = true
    ∧ (acquireJobLock (fun _ => none) "enrolment_sync" "workerA" 60 0).2 "enrolment_sync"
        = some { lockedBy := "workerA", lockedAt := 0, lockExpiresAt := 60 }
    ∧ acquireJobLock (acquireJobLock (fun _ => none) "enrolment_sync" "workerA" 60 0).2
        "enrolment_sync" "workerB" 60 60
      = (false, (acquireJobLock (fun _ => none) "enrolment_sync" "workerA" 60 0).2)
    ∧ (acquireJobLock (acquireJobLock (fun _ => none) "enrolment_sync" "workerA" 60 0).2
        "enrolment_sync" "workerB" 60 61).1 = true
    ∧ (acquireJobLock (acquireJobLock (fun _ => none) "enrolment_sync" "workerA" 60 0).2
        "enrolment_sync" "workerB" 60 61).2 "enrolment_sync"
      = some { lockedBy := "workerB", lockedAt := 61, lockExpiresAt := 121 }
    ∧ releaseJobLock
        (acquireJobLock (acquireJobLock (fun _ => none) "enrolment_sync" "workerA" 60 0).2
          "enrolment_sync" "workerB" 60 61).2
        "enrolment_sync" "workerA"
      = (acquireJobLock (acquireJobLock (fun _ => none) "enrolment_sync" "workerA" 60 0).2
          "enrolment_sync" "workerB" 60 61).2 := by
  have h := C1_lease_mutual_exclusion (fun _ => none) "enrolment_sync"
    "workerA" "workerB" 60 60 0 60 61 rfl (by decide) (by decide)
    (by decide) (by decide)
  exact ⟨h.1, h.2.1, h.2.2.1, h.2.2.2.1, h.2.2.2.2.1, h.2.2.2.2.2.1⟩

/-! ## C2, C3, C9: sync orchestrator -/

/-- A storage behavior in which the lease is acquired and `start_run`
raises. -/
def startRunFailsBehavior : StorageBehavior :=
  { acquireOk := true
    startRunResult := .error "start_run failed"
    runBodyResult := .ok () }

/-- C2 counterexample: when the lease is acquired but `start_run` raises,
`sync` terminates with that exception without ever calling
`release_job_lock` — `start_run` is invoked outside the `try` block whose
`finally` clause performs the release, so this terminal path skips it. -/
theorem C2_counterexample :
    startRunFailsBehavior.acquireOk = true
    ∧ (syncRun startRunFailsBehavior 60).1
        = [StorageCall.acquire syncJobName 60, StorageCall.startRun syncJobName "MANUAL"]
    ∧ StorageCall.release syncJobName ∉ (syncRun startRunFailsBehavior 60).1
    ∧ (syncRun startRunFailsBehavior 60).2 = Except.error "start_run failed" :=
  ⟨rfl, rfl, by decide, rfl⟩

/-- C2 (amended). Guaranteed lease release holds for every run in which the
lease is acquired and `start_run` returns: whether the body completes or
raises — and although both `finish_run` invocations then raise
`TypeError` — the trace contains a `release_job_lock` call on the sync
job, because the `finally` clause covers every exit from the `try`
block. (When `start_run` itself raises the release is skipped; see the
counterexample.) -/
theorem C2_lease_release_after_run_start
    (b : StorageBehavior) (lockTtlSeconds : Int)
    (hAcq : b.acquireOk = true)
    (hStart : ∃ runId, b.startRunResult = .ok runId) :
    StorageCall.release syncJobName ∈ (syncRun b lockTtlSeconds).1 := by
  obtain ⟨runId, hs⟩ := hStart
  unfold syncRun
  rw [hAcq, hs]
  simp only [Bool.true_eq_false, if_false]
  cases b.runBodyResult with
  | ok _ => simp
  | error e => simp

/-- C2 witness: a concrete behavior with the lease acquired and a failing
body still releases the lease. -/
theorem C2_lease_release_after_run_start_witness :
    StorageCall.release syncJobName ∈
      (syncRun
        { acquireOk := true
          startRunResult := .ok (some 7)
          runBodyResult := .error "HTTP 503" } 60).1 :=
  C2_lease_release_after_run_start _ 60 rfl ⟨some 7, rfl⟩

/-- A storage behavior in which the lease is acquired, `start_run` returns
run id 7, and the run body raises an exception. -/
def bodyFailsBehavior : StorageBehavior :=
  { acquireOk := true
    startRunResult := .ok (some 7)
    runBodyResult := .error "HTTP 503" }

/-- C3 (code bug). Run-log finalization never happens: at the failing input
— lease acquired, run id 7 started, body raising "HTTP 503" — the trace
contains no `finish_run` storage call at all (both call sites in `sync`
omit the required `job_name` argument and raise `TypeError` at argument
binding), the exception that propagates is the `TypeError`, not the
original exception, and the lease is still released by the `finally`
clause. The finalization the claim describes does exist in
`storage.finish_run` itself — invoked correctly with `success = False`
it would patch status FAILED with the message truncated to 1500
characters — but `sync` never reaches it. -/
theorem C3_finish_run_missing_job_name :
    (syncRun bodyFailsBehavior 60).1
      = [StorageCall.acquire syncJobName 60,
         StorageCall.startRun syncJobName "MANUAL",
         StorageCall.release syncJobName]
    ∧ (∀ runId success errorMessage,
        StorageCall.finishRun runId success errorMessage ∉ (syncRun bodyFailsBehavior 60).1)
    ∧ (syncRun bodyFailsBehavior 60).2 = Except.error finishRunTypeError
    ∧ (syncRun bodyFailsBehavior 60).2 ≠ Except.error "HTTP 503"
    ∧ finishRunPatch false (some "HTTP 503")
        = { status := "FAILED", errorMessage := some ("HTTP 503".take 1500) } := by
  refine ⟨rfl, ?_, rfl, ?_, rfl⟩
  · intro runId success errorMessage
    simp [syncRun, bodyFailsBehavior]
  · intro h
    have := Except.error.inj h
    exact absurd this (by decide)

/-- C9. Lock-conflict abort is side-effect free: when the lease acquire
returns false, `sync` makes no storage call other than the acquire — no
run-log start, no upsert, no finish, no release — and raises the distinct
lock-conflict error. -/
theorem C9_lock_conflict_abort
    (b : StorageBehavior) (lockTtlSeconds : Int)
    (hAcq : b.acquireOk = false) :
    (syncRun b lockTtlSeconds).1 = [StorageCall.acquire syncJobName lockTtlSeconds]
    ∧ (syncRun b lockTtlSeconds).2 = Except.error lockConflictMessage
    ∧ StorageCall.upsertRecords ∉ (syncRun b lockTtlSeconds).1
    ∧ StorageCall.release syncJobName ∉ (syncRun b lockTtlSeconds).1
    ∧ (∀ jobName triggerType,
        StorageCall.startRun jobName triggerType ∉ (syncRun b lockTtlSeconds).1)
    ∧ (∀ runId success errorMessage,
        StorageCall.finishRun runId success errorMessage ∉ (syncRun b lockTtlSeconds).1) := by
  unfold syncRun
  rw [hAcq]
  simp

/-- C9 witness: a concrete behavior whose acquire fails aborts with only the
acquire call in the trace. -/
theorem C9_lock_conflict_abort_witness :
    (syncRun
      { acquireOk := false
        startRunResult := .ok none
        runBodyResult := .ok () } 60).1
      = [StorageCall.acquire syncJobName 60]
    ∧ (syncRun
      { acquireOk := false
        startRunResult := .ok none
        runBodyResult := .ok () } 60).2 = Except.error lockConflictMessage
    ∧ StorageCall.startRun syncJobName "MANUAL" ∉
        (syncRun
          { acquireOk := false
            startRunResult := .ok none
            runBodyResult := .ok () } 60).1 := by
  have h := C9_lock_conflict_abort
    { acquireOk := false
      startRunResult := .ok none
      runBodyResult := .ok () } 60 rfl
  exact ⟨h.1, h.2.1, h.2.2.2.2.1 syncJobName "MANUAL"⟩

/-! ## C7: outbox retry backoff -/

/-- C7. Backoff law: with the constructor-clamped base and cap, a delivery
failure at prior retry count `n` increments the stored retry count to
`n + 1` and schedules the retry after `min(base * 2 ^ n, maxDelay)`
seconds; the delay never exceeds the cap, the cap is at least the base
(enforced by the constructor), and the delay sequence is non-decreasing
in the retry count. -/
theorem C7_backoff_law
    (configuredBase configuredMax : Int) (base maxSeconds : Int)
    (errorMessage : String) (m n : Int)
    (hBase : base = outboxRetryBaseSeconds configuredBase)
    (hMax : maxSeconds = outboxRetryMaxSeconds configuredBase configuredMax)
    (hm : 0 ≤ m) (hmn : m ≤ n) :
    (markOutboxFailedPatch base maxSeconds n errorMessage).retryCount = n + 1
    ∧ (markOutboxFailedPatch base maxSeconds n errorMessage).nextRetryDelaySeconds
        = min (base * 2 ^ n.toNat) maxSeconds
    ∧ (markOutboxFailedPatch base maxSeconds n errorMessage).nextRetryDelaySeconds
        ≤ maxSeconds
    ∧ base ≤ maxSeconds
    ∧ (markOutboxFailedPatch base maxSeconds m errorMessage).nextRetryDelaySeconds
        ≤ (markOutboxFailedPatch base maxSeconds n errorMessage).nextRetryDelaySeconds := by
  have hn : 0 ≤ n := hm.trans hmn
  have hbase1 : 1 ≤ base := by
    rw [hBase]
    exact le_max_left 1 configuredBase
  refine ⟨rfl, ?_, min_le_right _ _, ?_, ?_⟩
  · unfold markOutboxFailedPatch
    rw [max_eq_right hn]
  · rw [hBase, hMax]
    exact le_max_left _ _
  · unfold markOutboxFailedPatch
    apply min_le_min _ le_rfl
    apply mul_le_mul_of_nonneg_left _ (le_trans zero_le_one hbase1)
    apply pow_le_pow_right₀ (by norm_num : (1 : Int) ≤ 2)
    exact Int.toNat_le_toNat (max_le_max le_rfl hmn)

/-- C7 witness: with configured base 30 and cap 3600, the delay at retry
count 5 is 960 and at retry count 9 is capped at 3600. -/
theorem C7_backoff_law_witness :
    (markOutboxFailedPatch (outboxRetryBaseSeconds 30)
        (outboxRetryMaxSeconds 30 3600) 9 "timeout").retryCount = 10
    ∧ (markOutboxFailedPatch (outboxRetryBaseSeconds 30)
        (outboxRetryMaxSeconds 30 3600) 5 "timeout").nextRetryDelaySeconds
      ≤ (markOutboxFailedPatch (outboxRetryBaseSeconds 30)
        (outboxRetryMaxSeconds 30 3600) 9 "timeout").nextRetryDelaySeconds
    ∧ (markOutboxFailedPatch (outboxRetryBaseSeconds 30)
        (outboxRetryMaxSeconds 30 3600) 5 "timeout").nextRetryDelaySeconds = 960
    ∧ (markOutboxFailedPatch (outboxRetryBaseSeconds 30)
        (outboxRetryMaxSeconds 30 3600) 9 "timeout").nextRetryDelaySeconds = 3600 := by
  have h := C7_backoff_law 30 3600 (outboxRetryBaseSeconds 30)
    (outboxRetryMaxSeconds 30 3600) "timeout" 5 9 rfl rfl (by decide) (by decide)
  exact ⟨h.1, h.2.2.2.2, by decide, by decide⟩

/-! ## Concrete fixtures for witnesses and counterexamples -/

/-- A concrete enrolment-status record: the scenario of one status row for
user u1 in term 1 with status DS and sentinel-empty payment fields. -/
def sampleRecord : SourceRecordInput :=
  { sourceType := "enrolment_status"
    sourceId := "1:u1"
    categoryId := some 1
    courseId := some 200
    termId := some 1
    userId := some "u1"
    userName := none
    companyName := none
    deptName := none
    jobPosition := none
    status := some "DS"
    statusMsg := none
    codeName := none
    dsDate := none
    gcDate := none
    sjcDate := none
    updateTime := none
    payload := "payload-v1"
    payloadHash := "h" }

/-- The same logical record observed with a different payload. -/
def sampleRecordChanged : SourceRecordInput :=
  { sampleRecord with payload := "payload-v2", payloadHash := "h2" }

/-- A stored-hash table in which `sampleRecord` is already stored with its
current hash. -/
def sampleExisting : String × String → Option String :=
  fun k => if k = ("enrolment_status", "1:u1") then some "h" else none

/-- The alert row built from `sampleRecord` classified NEW. -/
def sampleAlertRow : AlertRow := alertRowOfRecord sampleRecord "NEW"

/-! ## C5: sheet-outbox enqueue idempotence -/

/-- C5 counterexample: two identical alerts in the same batch both pass the
existence check — which queries the table as it stood before the batch is
inserted — so the enqueue produces two sheet-outbox rows with the same
row_key. -/
theorem C5_counterexample :
    (enqueueSheetOutbox (fun _ => "d0") (fun _ => false)
        [sampleAlertRow, sampleAlertRow]).map (fun o => o.rowKey)
      = ["enrolment_status:1:u1:NEW:d0", "enrolment_status:1:u1:NEW:d0"]
    ∧ (enqueueSheetOutbox (fun _ => "d0") (fun _ => false)
        [sampleAlertRow, sampleAlertRow]).length = 2 := by
  constructor
  · decide
  · decide

/-- C5 (amended). Sheet-outbox enqueue dedup across calls: every row the
enqueue emits has a row_key that was absent from the sheet_outbox table
when the call began, so an alert identical to one enqueued in an earlier
call never produces a second row with the same row_key; and the row_key
is a stable function of exactly the six fields (source_type, source_id,
alert_type, title, message, detail) — two alert rows that agree on those
six fields get the same row_key whatever their other fields are. Two
identical alerts inside the same batch are not deduplicated (see the
counterexample). -/
theorem C5_sheet_outbox_dedup
    (digest : String → String) (rowKeyExists : String → Bool)
    (alertRows : List AlertRow) :
    (∀ o ∈ enqueueSheetOutbox digest rowKeyExists alertRows,
      rowKeyExists o.rowKey = false)
    ∧ (∀ a b : AlertRow, alertKeyFields a = alertKeyFields b →
        buildAlertRowKey digest a = buildAlertRowKey digest b) := by
  constructor
  · intro o ho
    rw [enqueueSheetOutbox, List.mem_filterMap] at ho
    obtain ⟨row, hrow, hf⟩ := ho
    cases hst : toStr (some row.sourceType) with
    | none => rw [hst] at hf; exact absurd hf (by simp)
    | some sourceType =>
      cases hsi : toStr (some row.sourceId) with
      | none => rw [hst, hsi] at hf; exact absurd hf (by simp)
      | some sourceId =>
        cases hat : toStr (some row.alertType) with
        | none => rw [hst, hsi, hat] at hf; exact absurd hf (by simp)
        | some alertType =>
          simp only [hst, hsi, hat] at hf
          by_cases hex : rowKeyExists (buildAlertRowKey digest row) = true
          · rw [if_pos hex] at hf
            exact absurd hf (by simp)
          · rw [if_neg hex] at hf
            cases hf
            simpa using hex
  · intro a b h
    cases a
    cases b
    simp only [alertKeyFields, Prod.mk.injEq] at h
    obtain ⟨h1, h2, h3, h4, h5, h6⟩ := h
    subst h1
    subst h2
    subst h3
    subst h4
    subst h5
    subst h6
    rfl

/-- C5 witness: with the row_key of `sampleAlertRow` already present in the
table, re-enqueuing it emits nothing, and a row differing from it only in
severity gets the same row_key. -/
theorem C5_sheet_outbox_dedup_witness :
    (∀ o ∈ enqueueSheetOutbox (fun _ => "d0") (fun _ => true) [sampleAlertRow],
      (fun _ => true : String → Bool) o.rowKey = false)
    ∧ buildAlertRowKey (fun _ => "d0") sampleAlertRow
        = buildAlertRowKey (fun _ => "d0") { sampleAlertRow with severity := "high" } := by
  have h := C5_sheet_outbox_dedup (fun _ => "d0") (fun _ => true) [sampleAlertRow]
  exact ⟨h.1, h.2 sampleAlertRow { sampleAlertRow with severity := "high" } rfl⟩

/-! ## C6: cooldown suppression -/

/-- C6 counterexample: two NEW candidates with the same
(source_type, source_id, alert_type) inside one upsert batch both pass
the lookback filter — the query only sees alerts already stored before
the batch is inserted — so two alert rows are stored, not one. -/
theorem C6_counterexample :
    (upsertSourceRecords [sampleRecord, sampleRecord] (fun _ => none) 5
        (fun _ _ _ => false) "2026-01-01T00:00:00Z").result.alertCount = 2
    ∧ ((upsertSourceRecords [sampleRecord, sampleRecord] (fun _ => none) 5
        (fun _ _ _ => false) "2026-01-01T00:00:00Z").alertRows.map
          (fun a => (a.sourceType, a.sourceId, a.alertType)))
      = [("enrolment_status", "1:u1", "NEW"), ("enrolment_status", "1:u1", "NEW")] := by
  constructor
  · decide
  · decide

/-- C6 (amended). Cooldown suppression across upsert calls: with a positive
cooldown window, the lookback filter keeps exactly the candidates whose
(source_type, source_id, alert_type) triple has no alert already stored
within the window, so a candidate arriving in a later batch while the
first alert is inside the window is dropped and exactly one alert row is
stored for the pair; two candidates inside the same batch are both kept
(see the counterexample). -/
theorem C6_cooldown_lookback
    (cooldownMinutes : Int)
    (hasRecent : String → String → String → Bool)
    (rows : List AlertRow)
    (records : List SourceRecordInput)
    (existing : String × String → Option String)
    (now : String)
    (hcd : 0 < cooldownMinutes)
    (hne : records ≠ []) :
    filterAlertRowsByCooldown cooldownMinutes hasRecent rows
      = rows.filter (fun r => !(hasRecent r.sourceType r.sourceId r.alertType))
    ∧ (upsertSourceRecords records existing cooldownMinutes hasRecent now).alertRows
      = (buildAlertRows records (buildDiff records existing)).filter
          (fun r => !(hasRecent r.sourceType r.sourceId r.alertType)) := by
  have hfilter : ∀ rs : List AlertRow,
      filterAlertRowsByCooldown cooldownMinutes hasRecent rs
        = rs.filter (fun r => !(hasRecent r.sourceType r.sourceId r.alertType)) := by
    intro rs
    cases rs with
    | nil => simp [filterAlertRowsByCooldown]
    | cons r rest =>
      unfold filterAlertRowsByCooldown
      rw [if_neg]
      rintro (h | h)
      · exact absurd hcd (not_lt.mpr h)
      · exact List.cons_ne_nil r rest h
  refine ⟨hfilter rows, ?_⟩
  unfold upsertSourceRecords
  rw [if_neg hne]
  exact hfilter _

/-- C6 witness: with a 30-minute window and an alert for the sample triple
already stored within it, the lone candidate of the next batch is dropped
and the upsert stores zero alert rows. -/
theorem C6_cooldown_lookback_witness :
    filterAlertRowsByCooldown 30 (fun _ _ _ => true) [sampleAlertRow] = []
    ∧ (upsertSourceRecords [sampleRecordChanged] sampleExisting 30
        (fun _ _ _ => true) "2026-01-01T00:00:00Z").alertRows
      = (buildAlertRows [sampleRecordChanged]
          (buildDiff [sampleRecordChanged] sampleExisting)).filter
            (fun r => !((fun _ _ _ => true : String → String → String → Bool)
              r.sourceType r.sourceId r.alertType)) := by
  have h := C6_cooldown_lookback 30 (fun _ _ _ => true) [sampleAlertRow]
    [sampleRecordChanged] sampleExisting "2026-01-01T00:00:00Z"
    (by decide) (by decide)
  refine ⟨h.1.trans ?_, h.2⟩
  decide

/-! ## Helper lemmas for the diff and alert pipeline -/

/-- Every row produced by `buildAlertRows` comes from an `enrolment_status`
record whose diff classification is NEW or CHANGED. -/
lemma exists_of_mem_buildAlertRows {records : List SourceRecordInput}
    {diff : String × String → Option String} {a : AlertRow}
    (ha : a ∈ buildAlertRows records diff) :
    ∃ r ∈ records, ∃ alertType,
      r.sourceType = "enrolment_status"
      ∧ diff (recordKey r) = some alertType
      ∧ (alertType = "NEW" ∨ alertType = "CHANGED")
      ∧ a = alertRowOfRecord r alertType := by
  rw [buildAlertRows, List.mem_filterMap] at ha
  obtain ⟨r, hr, hf⟩ := ha
  by_cases hst : r.sourceType = "enrolment_status"
  · rw [if_neg (not_not_intro hst)] at hf
    cases hd : diff (recordKey r) with
    | none => rw [hd] at hf; exact absurd hf (by simp)
    | some v =>
      simp only [hd] at hf
      by_cases hv : (v == "NEW" || v == "CHANGED") = true
      · rw [if_pos hv] at hf
        cases hf
        refine ⟨r, hr, v, hst, hd, ?_, rfl⟩
        simpa using hv
      · rw [if_neg hv] at hf
        exact absurd hf (by simp)
  · rw [if_pos hst] at hf
    exact absurd hf (by simp)

/-- Closed form of the `_count_business_diff` fold: each counter is the
number of `enrolment_status` records whose diff classification is the
corresponding value. -/
lemma countBusinessDiff_foldl (diff : String × String → Option String) :
    ∀ (records : List SourceRecordInput) (c : Nat × Nat),
      records.foldl (countBusinessDiffStep diff) c
        = (c.1 + records.countP (fun r => r.sourceType == "enrolment_status"
              && diff (recordKey r) == some "NEW"),
           c.2 + records.countP (fun r => r.sourceType == "enrolment_status"
              && diff (recordKey r) == some "CHANGED")) := by
  intro records
  induction records with
  | nil => intro c; simp
  | cons r rs ih =>
    intro c
    rw [List.foldl_cons, ih]
    by_cases hst : r.sourceType = "enrolment_status"
    · cases hd : diff (recordKey r) with
      | none =>
        simp [countBusinessDiffStep, hst, hd, List.countP_cons]
      | some v =>
        by_cases hvn : v = "NEW"
        · subst hvn
          simp [countBusinessDiffStep, hst, hd, List.countP_cons]
          omega
        · by_cases hvc : v = "CHANGED"
          · subst hvc
            simp [countBusinessDiffStep, hst, hd, List.countP_cons]
            omega
          · simp [countBusinessDiffStep, hst, hd, hvn, hvc, List.countP_cons]
    · simp [countBusinessDiffStep, hst, List.countP_cons]

/-- The cooldown filter only removes rows. -/
lemma mem_of_mem_filterAlertRowsByCooldown {cooldownMinutes : Int}
    {hasRecent : String → String → String → Bool} {rows : List AlertRow}
    {a : AlertRow}
    (h : a ∈ filterAlertRowsByCooldown cooldownMinutes hasRecent rows) :
    a ∈ rows := by
  unfold filterAlertRowsByCooldown at h
  split at h
  · exact h
  · exact (List.mem_filter.mp h).1

/-- The alert rows of a non-empty upsert are the cooldown-filtered
candidates. -/
lemma upsert_alertRows_eq {records : List SourceRecordInput}
    {existing : String × String → Option String} {cooldownMinutes : Int}
    {hasRecent : String → String → String → Bool} {now : String}
    (hne : records ≠ []) :
    (upsertSourceRecords records existing cooldownMinutes hasRecent now).alertRows
      = filterAlertRowsByCooldown cooldownMinutes hasRecent
          (buildAlertRows records (buildDiff records existing)) := by
  unfold upsertSourceRecords
  rw [if_neg hne]

/-! ## C10: only the business source type counts and alerts -/

/-- C10. Diff counts and alerts are restricted to the business source type:
for every batch, `upserted_count` is the full batch length; the NEW and
CHANGED counters returned by the upsert count exactly the
`enrolment_status` records classified NEW respectively CHANGED (records
of any other source type, such as `enrolment_user_detail`, contribute
nothing even when their hash is new or changed); and every alert
candidate, and hence every stored alert row, has source type
`enrolment_status`. -/
theorem C10_business_scope
    (records : List SourceRecordInput)
    (existing : String × String → Option String)
    (cooldownMinutes : Int)
    (hasRecent : String → String → String → Bool)
    (now : String) :
    (upsertSourceRecords records existing cooldownMinutes hasRecent now).result.upsertedCount
      = records.length
    ∧ (upsertSourceRecords records existing cooldownMinutes hasRecent now).result.newCount
      = records.countP (fun r => r.sourceType == "enrolment_status"
          && buildDiff records existing (recordKey r) == some "NEW")
    ∧ (upsertSourceRecords records existing cooldownMinutes hasRecent now).result.changedCount
      = records.countP (fun r => r.sourceType == "enrolment_status"
          && buildDiff records existing (recordKey r) == some "CHANGED")
    ∧ (∀ a ∈ buildAlertRows records (buildDiff records existing),
        a.sourceType = "enrolment_status")
    ∧ (∀ a ∈ (upsertSourceRecords records existing cooldownMinutes hasRecent now).alertRows,
        a.sourceType = "enrolment_status") := by
  have halert : ∀ a ∈ buildAlertRows records (buildDiff records existing),
      a.sourceType = "enrolment_status" := by
    intro a ha
    obtain ⟨r, _, alertType, hst, _, _, haeq⟩ := exists_of_mem_buildAlertRows ha
    rw [haeq]
    exact hst
  cases hrec : records with
  | nil =>
    subst hrec
    refine ⟨rfl, rfl, rfl, halert, ?_⟩
    intro a ha
    exact absurd ha (by simp [upsertSourceRecords])
  | cons r rs =>
    subst hrec
    have hne : r :: rs ≠ ([] : List SourceRecordInput) := List.cons_ne_nil r rs
    have hcount := countBusinessDiff_foldl (buildDiff (r :: rs) existing) (r :: rs) (0, 0)
    constructor
    · unfold upsertSourceRecords
      rw [if_neg hne]
    constructor
    · unfold upsertSourceRecords
      rw [if_neg hne]
      show (countBusinessDiff (r :: rs) (buildDiff (r :: rs) existing)).1 = _
      rw [countBusinessDiff, hcount]
      simp
    constructor
    · unfold upsertSourceRecords
      rw [if_neg hne]
      show (countBusinessDiff (r :: rs) (buildDiff (r :: rs) existing)).2 = _
      rw [countBusinessDiff, hcount]
      simp
    refine ⟨halert, ?_⟩
    intro a ha
    rw [upsert_alertRows_eq hne] at ha
    exact halert a (mem_of_mem_filterAlertRowsByCooldown ha)

/-- C10 witness: a batch of one status record and one user-detail record
with the same new hash counts one NEW record, and the detail record
produces no alert. -/
theorem C10_business_scope_witness :
    (upsertSourceRecords
        [sampleRecord, { sampleRecord with sourceType := "enrolment_user_detail" }]
        (fun _ => none) 0 (fun _ _ _ => false)
        "2026-01-01T00:00:00Z").result.upsertedCount = 2
    ∧ (upsertSourceRecords
        [sampleRecord, { sampleRecord with sourceType := "enrolment_user_detail" }]
        (fun _ => none) 0 (fun _ _ _ => false)
        "2026-01-01T00:00:00Z").result.newCount
      = List.countP (fun r => r.sourceType == "enrolment_status"
          && buildDiff
              [sampleRecord, { sampleRecord with sourceType := "enrolment_user_detail" }]
              (fun _ => none) (recordKey r) == some "NEW")
          [sampleRecord, { sampleRecord with sourceType := "enrolment_user_detail" }]
    ∧ (upsertSourceRecords
        [sampleRecord, { sampleRecord with sourceType := "enrolment_user_detail" }]
        (fun _ => none) 0 (fun _ _ _ => false)
        "2026-01-01T00:00:00Z").result.newCount = 1
    ∧ (upsertSourceRecords
        [sampleRecord, { sampleRecord with sourceType := "enrolment_user_detail" }]
        (fun _ => none) 0 (fun _ _ _ => false)
        "2026-01-01T00:00:00Z").alertRows.map (fun a => a.sourceType)
      = ["enrolment_status"] := by
  have h := C10_business_scope
    [sampleRecord, { sampleRecord with sourceType := "enrolment_user_detail" }]
    (fun _ => none) 0 (fun _ _ _ => false) "2026-01-01T00:00:00Z"
  exact ⟨h.1, h.2.1, by decide, by decide⟩

/-! ## C8: severity decision table -/

/-- C8. Severity decision table: every alert row built from an
alert-eligible record is classified NEW or CHANGED; its severity is high
when it is CHANGED and the record is paid or doc-ready, medium when it is
NEW and paid or doc-ready, low when neither holds and the status is the
specific low-severity status DS, and medium otherwise; the paid and
doc-ready flags recorded in the row's detail are exactly the
truthy-timestamp test on the record's gc_date respectively sjc_date; and
a value is a truthy timestamp precisely when it is present, non-blank
after stripping, and not the case-insensitive sentinel "empty". -/
theorem C8_severity_decision_table
    (records : List SourceRecordInput)
    (diff : String × String → Option String)
    (a : AlertRow)
    (ha : a ∈ buildAlertRows records diff) :
    (a.alertType = "NEW" ∨ a.alertType = "CHANGED")
    ∧ a.severity =
        (if a.alertType == "CHANGED" && (a.detail.isPaid || a.detail.isDocReady)
          then "high"
         else if a.alertType == "NEW" && (a.detail.isPaid || a.detail.isDocReady)
          then "medium"
         else if a.detail.status == some "DS" then "low"
         else "medium")
    ∧ a.detail.isPaid = isTruthyTimestamp a.detail.gcDate
    ∧ a.detail.isDocReady = isTruthyTimestamp a.detail.sjcDate
    ∧ (∀ v : Option String, isTruthyTimestamp v = true ↔
        ∃ s, v = some s ∧ pyStrip s ≠ "" ∧ pyLower (pyStrip s) ≠ "empty") := by
  obtain ⟨r, _, alertType, _, _, htype, haeq⟩ := exists_of_mem_buildAlertRows ha
  subst haeq
  refine ⟨?_, ?_, rfl, rfl, ?_⟩
  · simpa [alertRowOfRecord] using htype
  · show determineSeverity alertType r.status
      (isTruthyTimestamp r.gcDate) (isTruthyTimestamp r.sjcDate) = _
    rfl
  · intro v
    cases v with
    | none => simp [isTruthyTimestamp]
    | some s =>
      by_cases hs : pyStrip s = ""
      · simp [isTruthyTimestamp, hs]
      · simp [isTruthyTimestamp, hs]

/-- C8 witness: the spec scenario — a NEW record with status DS and
sentinel-empty payment fields yields a low-severity alert whose detail
records no paid or doc-ready flag. -/
theorem C8_severity_decision_table_witness :
    (sampleAlertRow.alertType = "NEW" ∨ sampleAlertRow.alertType = "CHANGED")
    ∧ sampleAlertRow.severity = "low"
    ∧ sampleAlertRow.detail.isPaid = isTruthyTimestamp sampleRecord.gcDate
    ∧ sampleAlertRow.detail.isPaid = false
    ∧ (isTruthyTimestamp (some " EMPTY ") = true ↔
        ∃ s, (some " EMPTY " : Option String) = some s
          ∧ pyStrip s ≠ "" ∧ pyLower (pyStrip s) ≠ "empty") := by
  have h := C8_severity_decision_table [sampleRecord]
    (fun k => if k = ("enrolment_status", "1:u1") then some "NEW" else none)
    sampleAlertRow (by decide)
  exact ⟨h.1, h.2.1.trans (by decide), h.2.2.1, by decide,
    h.2.2.2.2 (some " EMPTY ")⟩

/-! ## C4: unchanged records -/

/-- A diff step for a record with a different key leaves the value at `k`
unchanged. -/
lemma buildDiffStep_apply_ne (existing : String × String → Option String)
    (d0 : String × String → Option String) (r : SourceRecordInput)
    (k : String × String) (hk : recordKey r ≠ k) :
    buildDiffStep existing d0 r k = d0 k := by
  unfold buildDiffStep
  cases hex : existing (recordKey r) with
  | none =>
    show (if k = recordKey r then some "NEW" else d0 k) = d0 k
    rw [if_neg hk.symm]
  | some oldHash =>
    show (if oldHash ≠ r.payloadHash
        then (fun j => if j = recordKey r then some "CHANGED" else d0 j)
        else d0) k = d0 k
    by_cases hd : oldHash ≠ r.payloadHash
    · rw [if_pos hd]
      show (if k = recordKey r then some "CHANGED" else d0 k) = d0 k
      rw [if_neg hk.symm]
    · rw [if_neg hd]

/-- A diff step for a record whose stored hash equals its payload hash
writes nothing. -/
lemma buildDiffStep_apply_unchanged (existing : String × String → Option String)
    (d0 : String × String → Option String) (r : SourceRecordInput)
    (k : String × String) (hk : recordKey r = k)
    (hex : existing k = some r.payloadHash) :
    buildDiffStep existing d0 r k = d0 k := by
  unfold buildDiffStep
  rw [hk, hex]
  show (if r.payloadHash ≠ r.payloadHash
      then (fun j => if j = k then some "CHANGED" else d0 j)
      else d0) k = d0 k
  rw [if_neg (by simp)]

/-- The diff fold never writes at a key whose every same-key record carries
the stored hash. -/
lemma foldl_buildDiffStep_apply (existing : String × String → Option String)
    (k : String × String) :
    ∀ (records : List SourceRecordInput) (d0 : String × String → Option String),
      (∀ x ∈ records, recordKey x = k → existing k = some x.payloadHash) →
      records.foldl (buildDiffStep existing) d0 k = d0 k := by
  intro records
  induction records with
  | nil => intro d0 _; rfl
  | cons r rs ih =>
    intro d0 h
    rw [List.foldl_cons,
      ih (buildDiffStep existing d0 r)
        (fun x hx hkx => h x (List.mem_cons_of_mem r hx) hkx)]
    by_cases hk : recordKey r = k
    · exact buildDiffStep_apply_unchanged existing d0 r k hk
        (hk ▸ h r (List.mem_cons_self r rs) hk)
    · exact buildDiffStep_apply_ne existing d0 r k hk

/-- `_build_diff` leaves no entry at a key all of whose batch records carry
the stored hash. -/
lemma buildDiff_eq_none {records : List SourceRecordInput}
    {existing : String × String → Option String} {k : String × String}
    (h : ∀ x ∈ records, recordKey x = k → existing k = some x.payloadHash) :
    buildDiff records existing k = none :=
  foldl_buildDiffStep_apply existing k records (fun _ => none) h

/-- A record that is not of the business source type, or whose key has no
diff entry, contributes nothing to the business counters. -/
lemma countBusinessDiffStep_eq_self (diff : String × String → Option String)
    (c : Nat × Nat) (x : SourceRecordInput)
    (h : x.sourceType ≠ "enrolment_status" ∨ diff (recordKey x) = none) :
    countBusinessDiffStep diff c x = c := by
  unfold countBusinessDiffStep
  rcases h with h | h
  · rw [if_pos h]
  · by_cases hst : x.sourceType ≠ "enrolment_status"
    · rw [if_pos hst]
    · rw [if_neg hst, h]

/-- Records that contribute nothing can be filtered out of the business
count fold. -/
lemma foldl_countBusinessDiffStep_filter (diff : String × String → Option String)
    (q : SourceRecordInput → Bool) :
    ∀ (records : List SourceRecordInput) (c : Nat × Nat),
      (∀ x ∈ records, q x = false →
        x.sourceType ≠ "enrolment_status" ∨ diff (recordKey x) = none) →
      records.foldl (countBusinessDiffStep diff) c
        = (records.filter q).foldl (countBusinessDiffStep diff) c := by
  intro records
  induction records with
  | nil => intro c _; rfl
  | cons x rs ih =>
    intro c h
    by_cases hq : q x = true
    · rw [List.filter_cons_of_pos hq, List.foldl_cons, List.foldl_cons]
      exact ih _ (fun y hy hqy => h y (List.mem_cons_of_mem x hy) hqy)
    · have hqf : q x = false := by simpa using hq
      rw [List.filter_cons_of_neg (by simpa using hq), List.foldl_cons,
        countBusinessDiffStep_eq_self diff c x (h x (List.mem_cons_self x rs) hqf)]
      exact ih _ (fun y hy hqy => h y (List.mem_cons_of_mem x hy) hqy)

/-- C4 counterexample: a batch holding two records with the same key — one
carrying the stored hash, one changed — makes the unchanged record
produce an alert row (the first alert's detail carries the unchanged
hash "h") and count into changedCount, which reaches 2 although only one
record changed. -/
theorem C4_counterexample :
    (upsertSourceRecords [sampleRecord, sampleRecordChanged] sampleExisting 0
        (fun _ _ _ => false) "2026-01-01T00:00:00Z").result.changedCount = 2
    ∧ ((upsertSourceRecords [sampleRecord, sampleRecordChanged] sampleExisting 0
        (fun _ _ _ => false) "2026-01-01T00:00:00Z").alertRows.map
          (fun a => a.detail.payloadHash)) = ["h", "h2"]
    ∧ sampleExisting (recordKey sampleRecord) = some sampleRecord.payloadHash := by
  refine ⟨by decide, by decide, by decide⟩

/-- C4 (amended). Unchanged records stay silent but are snapshotted: for
every record `r` of an upsert batch such that every batch record sharing
`r`'s (source_type, source_id) key — `r` itself included — carries the
hash already stored for that key, the diff has no entry at `r`'s key, no
stored alert row carries `r`'s key, the batch's NEW/CHANGED counters
equal those of the batch with `r`'s key removed (the record contributes
zero to both), while exactly one snapshot row per batch occurrence is
still appended — `r`'s among them — and `r`'s current-state row is still
upserted. (Without the shared-key condition the claim fails: see the
counterexample, where a changed twin of the key makes the unchanged
record alert and count.) -/
theorem C4_unchanged_records_silent
    (records : List SourceRecordInput)
    (existing : String × String → Option String)
    (cooldownMinutes : Int)
    (hasRecent : String → String → String → Bool)
    (now : String)
    (r : SourceRecordInput)
    (hr : r ∈ records)
    (hsame : ∀ x ∈ records, recordKey x = recordKey r →
      existing (recordKey r) = some x.payloadHash) :
    buildDiff records existing (recordKey r) = none
    ∧ (∀ a ∈ (upsertSourceRecords records existing cooldownMinutes hasRecent now).alertRows,
        (a.sourceType, a.sourceId) ≠ recordKey r)
    ∧ countBusinessDiff records (buildDiff records existing)
      = countBusinessDiff
          (records.filter (fun x => !(recordKey x == recordKey r)))
          (buildDiff records existing)
    ∧ (upsertSourceRecords records existing cooldownMinutes hasRecent now).snapshotRows
      = records.map snapshotRowOf
    ∧ snapshotRowOf r ∈
        (upsertSourceRecords records existing cooldownMinutes hasRecent now).snapshotRows
    ∧ sourceRowOf now r ∈
        (upsertSourceRecords records existing cooldownMinutes hasRecent now).sourceRows := by
  have hne : records ≠ [] := List.ne_nil_of_mem hr
  have hdiff : buildDiff records existing (recordKey r) = none :=
    buildDiff_eq_none hsame
  have hsnap : (upsertSourceRecords records existing cooldownMinutes hasRecent now).snapshotRows
      = records.map snapshotRowOf := by
    unfold upsertSourceRecords
    rw [if_neg hne]
  refine ⟨hdiff, ?_, ?_, hsnap, ?_, ?_⟩
  · intro a ha hkey
    rw [upsert_alertRows_eq hne] at ha
    obtain ⟨x, _, alertType, _, hdx, _, haeq⟩ :=
      exists_of_mem_buildAlertRows (mem_of_mem_filterAlertRowsByCooldown ha)
    have hxk : recordKey x = recordKey r := by
      rw [haeq] at hkey
      exact hkey
    rw [hxk, hdiff] at hdx
    exact Option.noConfusion hdx
  · unfold countBusinessDiff
    apply foldl_countBusinessDiffStep_filter
    intro x _ hqx
    right
    have hxk : recordKey x = recordKey r := by
      simpa using hqx
    rw [hxk, hdiff]
  · rw [hsnap]
    exact List.mem_map_of_mem snapshotRowOf hr
  · have hsrc : (upsertSourceRecords records existing cooldownMinutes hasRecent now).sourceRows
        = records.map (sourceRowOf now) := by
      unfold upsertSourceRecords
      rw [if_neg hne]
    rw [hsrc]
    exact List.mem_map_of_mem (sourceRowOf now) hr

/-- C4 witness: a one-record batch whose record carries the stored hash
produces no diff entry, equal counts with the record filtered out, and
its snapshot and current-state rows. -/
theorem C4_unchanged_records_silent_witness :
    buildDiff [sampleRecord] sampleExisting (recordKey sampleRecord) = none
    ∧ countBusinessDiff [sampleRecord] (buildDiff [sampleRecord] sampleExisting)
      = countBusinessDiff
          (List.filter (fun x => !(recordKey x == recordKey sampleRecord)) [sampleRecord])
          (buildDiff [sampleRecord] sampleExisting)
    ∧ (upsertSourceRecords [sampleRecord] sampleExisting 0 (fun _ _ _ => false)
        "2026-01-01T00:00:00Z").snapshotRows = [sampleRecord].map snapshotRowOf
    ∧ snapshotRowOf sampleRecord ∈
        (upsertSourceRecords [sampleRecord] sampleExisting 0 (fun _ _ _ => false)
          "2026-01-01T00:00:00Z").snapshotRows
    ∧ sourceRowOf "2026-01-01T00:00:00Z" sampleRecord ∈
        (upsertSourceRecords [sampleRecord] sampleExisting 0 (fun _ _ _ => false)
          "2026-01-01T00:00:00Z").sourceRows := by
  have h := C4_unchanged_records_silent [sampleRecord] sampleExisting 0
    (fun _ _ _ => false) "2026-01-01T00:00:00Z" sampleRecord (by decide)
    (by decide)
  exact ⟨h.1, h.2.2.1, h.2.2.2.1, h.2.2.2.2.1, h.2.2.2.2.2⟩

end Kvca
